import Mathlib

/-!
Verification of the moria tax-preparation core: a shallow embedding of
the bracket-tax calculator and constants tables (src/taxes/tax-data.js),
the filing computation (src/taxes/wizard.js, computeAndRenderTaxes and
updateCreditsView), the gap-question selector (src/taxes/gap-analysis.js)
and the rules evaluation engine (src/taxes/rules.js, runRulesEngine).

Numeric model: JavaScript numbers are modelled as exact rationals (ℚ).
JS Math.round(x) rounds half toward positive infinity, i.e. ⌊x + 1/2⌋;
JS Math.floor is ⌊x⌋.  All rounding points exercised by the concrete
theorems below were checked to agree between IEEE doubles and ℚ.
-/

namespace Moria

/-- JS Math.round: round half toward positive infinity, as an integer. -/
def jsRoundZ (x : ℚ) : ℤ := Int.floor (x + 1/2)

/-- JS Math.round, result kept as a rational (the JS value is a number). -/
def jsRound (x : ℚ) : ℚ := ((jsRoundZ x : ℤ) : ℚ)

/-- JS Math.floor, result kept as a rational. -/
def jsFloor (x : ℚ) : ℚ := ((Int.floor x : ℤ) : ℚ)

/-- One bracket `[width, rate]`.  The JS tables store the width of the last
bracket as `Infinity`; a width of `none` models `Infinity`, `some w` a
finite width. -/
structure Bracket where
  width : Option ℚ
  rate : ℚ
  deriving DecidableEq, Repr

/-- JS `Math.min(remaining, width)` where `width` may be `Infinity`. -/
def bracketAmt (remaining : ℚ) : Option ℚ → ℚ
  | none => remaining
  | some w => min remaining w

/-- The accumulation loop of `computeTaxFromBrackets` (tax-data.js lines
313-321) before the final `Math.round`: walk the list, consume
`min(remaining, width)` at `rate`, stop once `remaining ≤ 0`. -/
def taxCore : ℚ → List Bracket → ℚ
  | _, [] => 0
  | remaining, b :: bs =>
    if remaining ≤ 0 then 0
    else
      let amt := bracketAmt remaining b.width
      amt * b.rate + taxCore (remaining - amt) bs

/-- tax-data.js `computeTaxFromBrackets`: the accumulated marginal tax,
rounded once at the end (`Math.round(tax)`). -/
def computeTaxFromBrackets (taxableIncome : ℚ) (brackets : List Bracket) : ℚ :=
  jsRound (taxCore taxableIncome brackets)

/-- Filing statuses, the string keys of the constants tables. -/
inductive FilingStatus
  | single
  | mfj
  | mfs
  | hoh
  | qss
  deriving DecidableEq, Repr

/-- One year of FEDERAL_DATA (tax-data.js).  Fields not read by the
claims under verification are omitted: ssWageBase, ssRate, medicareRate,
the catch-up limits, eitcNoChild, saversCreditLimit, the phaseout tables,
qbiThreshold and ctcIncomeLimit are pure data never consulted by
computeAndRenderTaxes, updateCreditsView or the theorems below. -/
structure FedYear where
  sdSingle : ℚ
  sdMfj : ℚ
  sdMfs : ℚ
  sdHoh : ℚ
  sdQss : ℚ
  bracketsSingle : List Bracket
  bracketsMfj : List Bracket
  bracketsMfs : List Bracket
  bracketsHoh : List Bracket
  seTaxRate : ℚ
  contrib401kLimit : ℚ
  contribIRALimit : ℚ
  contribHSASelf : ℚ
  studentLoanMax : ℚ
  educatorExpense : ℚ
  mileageRate : ℚ
  saltCap : ℚ
  ctcAmount : ℚ
  deriving DecidableEq

/-- Dictionary lookup `standardDeduction[fs]`: the federal table has all
five keys. -/
def FedYear.sdOf (d : FedYear) : FilingStatus → ℚ
  | .single => d.sdSingle
  | .mfj => d.sdMfj
  | .mfs => d.sdMfs
  | .hoh => d.sdHoh
  | .qss => d.sdQss

/-- Dictionary lookup `brackets[fs]`: the federal brackets table has keys
single, mfj, mfs, hoh and no qss key, so the qss lookup yields
undefined (`none`). -/
def FedYear.bracketsOf (d : FedYear) : FilingStatus → Option (List Bracket)
  | .single => some d.bracketsSingle
  | .mfj => some d.bracketsMfj
  | .mfs => some d.bracketsMfs
  | .hoh => some d.bracketsHoh
  | .qss => none

def fed2023 : FedYear :=
  { sdSingle := 13850, sdMfj := 27700, sdMfs := 13850, sdHoh := 20800, sdQss := 27700
    bracketsSingle := [⟨some 11000, 0.10⟩, ⟨some (44725 - 11000), 0.12⟩,
      ⟨some (95375 - 44725), 0.22⟩, ⟨some (182100 - 95375), 0.24⟩,
      ⟨some (231250 - 182100), 0.32⟩, ⟨some (578125 - 231250), 0.35⟩, ⟨none, 0.37⟩]
    bracketsMfj := [⟨some 22000, 0.10⟩, ⟨some (89450 - 22000), 0.12⟩,
      ⟨some (190750 - 89450), 0.22⟩, ⟨some (364200 - 190750), 0.24⟩,
      ⟨some (462500 - 364200), 0.32⟩, ⟨some (693750 - 462500), 0.35⟩, ⟨none, 0.37⟩]
    bracketsMfs := [⟨some 11000, 0.10⟩, ⟨some (44725 - 11000), 0.12⟩,
      ⟨some (95375 - 44725), 0.22⟩, ⟨some (182100 - 95375), 0.24⟩,
      ⟨some (231250 - 182100), 0.32⟩, ⟨some (346875 - 231250), 0.35⟩, ⟨none, 0.37⟩]
    bracketsHoh := [⟨some 15700, 0.10⟩, ⟨some (59850 - 15700), 0.12⟩,
      ⟨some (95350 - 59850), 0.22⟩, ⟨some (182100 - 95350), 0.24⟩,
      ⟨some (231250 - 182100), 0.32⟩, ⟨some (578100 - 231250), 0.35⟩, ⟨none, 0.37⟩]
    seTaxRate := 0.153, contrib401kLimit := 22500, contribIRALimit := 6500
    contribHSASelf := 3850, studentLoanMax := 2500, educatorExpense := 300
    mileageRate := 0.655, saltCap := 10000, ctcAmount := 2000 }

def fed2024 : FedYear :=
  { sdSingle := 14600, sdMfj := 29200, sdMfs := 14600, sdHoh := 21900, sdQss := 29200
    bracketsSingle := [⟨some 11600, 0.10⟩, ⟨some (47150 - 11600), 0.12⟩,
      ⟨some (100525 - 47150), 0.22⟩, ⟨some (191950 - 100525), 0.24⟩,
      ⟨some (243725 - 191950), 0.32⟩, ⟨some (609350 - 243725), 0.35⟩, ⟨none, 0.37⟩]
    bracketsMfj := [⟨some 23200, 0.10⟩, ⟨some (94300 - 23200), 0.12⟩,
      ⟨some (201050 - 94300), 0.22⟩, ⟨some (383900 - 201050), 0.24⟩,
      ⟨some (487450 - 383900), 0.32⟩, ⟨some (731200 - 487450), 0.35⟩, ⟨none, 0.37⟩]
    bracketsMfs := [⟨some 11600, 0.10⟩, ⟨some (47150 - 11600), 0.12⟩,
      ⟨some (100525 - 47150), 0.22⟩, ⟨some (191950 - 100525), 0.24⟩,
      ⟨some (243725 - 191950), 0.32⟩, ⟨some (365600 - 243725), 0.35⟩, ⟨none, 0.37⟩]
    bracketsHoh := [⟨some 16550, 0.10⟩, ⟨some (63100 - 16550), 0.12⟩,
      ⟨some (100500 - 63100), 0.22⟩, ⟨some (191950 - 100500), 0.24⟩,
      ⟨some (243700 - 191950), 0.32⟩, ⟨some (609350 - 243700), 0.35⟩, ⟨none, 0.37⟩]
    seTaxRate := 0.153, contrib401kLimit := 23000, contribIRALimit := 7000
    contribHSASelf := 4150, studentLoanMax := 2500, educatorExpense := 300
    mileageRate := 0.67, saltCap := 10000, ctcAmount := 2000 }

def fed2025 : FedYear :=
  { sdSingle := 15000, sdMfj := 30000, sdMfs := 15000, sdHoh := 22500, sdQss := 30000
    bracketsSingle := [⟨some 11925, 0.10⟩, ⟨some (48475 - 11925), 0.12⟩,
      ⟨some (103350 - 48475), 0.22⟩, ⟨some (197300 - 103350), 0.24⟩,
      ⟨some (250525 - 197300), 0.32⟩, ⟨some (626350 - 250525), 0.35⟩, ⟨none, 0.37⟩]
    bracketsMfj := [⟨some 23850, 0.10⟩, ⟨some (96950 - 23850), 0.12⟩,
      ⟨some (206700 - 96950), 0.22⟩, ⟨some (394600 - 206700), 0.24⟩,
      ⟨some (501050 - 394600), 0.32⟩, ⟨some (751600 - 501050), 0.35⟩, ⟨none, 0.37⟩]
    bracketsMfs := [⟨some 11925, 0.10⟩, ⟨some (48475 - 11925), 0.12⟩,
      ⟨some (103350 - 48475), 0.22⟩, ⟨some (197300 - 103350), 0.24⟩,
      ⟨some (250525 - 197300), 0.32⟩, ⟨some (375800 - 250525), 0.35⟩, ⟨none, 0.37⟩]
    bracketsHoh := [⟨some 17000, 0.10⟩, ⟨some (64850 - 17000), 0.12⟩,
      ⟨some (103350 - 64850), 0.22⟩, ⟨some (197300 - 103350), 0.24⟩,
      ⟨some (250500 - 197300), 0.32⟩, ⟨some (626350 - 250500), 0.35⟩, ⟨none, 0.37⟩]
    seTaxRate := 0.153, contrib401kLimit := 23500, contribIRALimit := 7000
    contribHSASelf := 4300, studentLoanMax := 2500, educatorExpense := 300
    mileageRate := 0.70, saltCap := 10000, ctcAmount := 2000 }

/-- `FEDERAL_DATA[yr] || FEDERAL_DATA[2025]`: year lookup with fallback to
the 2025 table for unknown years. -/
def fedYearLookup (y : ℕ) : FedYear :=
  if y = 2023 then fed2023
  else if y = 2024 then fed2024
  else if y = 2025 then fed2025
  else fed2025

/-- One year of CALIFORNIA_DATA.  The sdiWageLimit, sdiRate and
rentersCreditLimit fields are never read by the computations under
verification and are omitted. -/
structure CAYear where
  sdSingle : ℚ
  sdMfj : ℚ
  sdMfs : ℚ
  sdHoh : ℚ
  bracketsSingle : List Bracket
  bracketsMfj : List Bracket
  mentalHealthThreshold : ℚ
  mentalHealthRate : ℚ
  rentersCreditSingle : ℚ
  rentersCreditMfj : ℚ
  deriving DecidableEq

/-- Dictionary lookup `standardDeduction[fs]` on a state table: the state
tables have keys single, mfj, mfs, hoh and no qss key, so the qss lookup
yields undefined (`none`). -/
def CAYear.sdOf (d : CAYear) : FilingStatus → Option ℚ
  | .single => some d.sdSingle
  | .mfj => some d.sdMfj
  | .mfs => some d.sdMfs
  | .hoh => some d.sdHoh
  | .qss => none

def ca2023 : CAYear :=
  { sdSingle := 5363, sdMfj := 10726, sdMfs := 5363, sdHoh := 10726
    bracketsSingle := [⟨some 10099, 0.01⟩, ⟨some (23942 - 10099), 0.02⟩,
      ⟨some (37788 - 23942), 0.04⟩, ⟨some (52455 - 37788), 0.06⟩,
      ⟨some (66295 - 52455), 0.08⟩, ⟨some (338639 - 66295), 0.093⟩,
      ⟨some (406364 - 338639), 0.103⟩, ⟨some (677275 - 406364), 0.113⟩, ⟨none, 0.123⟩]
    bracketsMfj := [⟨some 20198, 0.01⟩, ⟨some (47884 - 20198), 0.02⟩,
      ⟨some (75576 - 47884), 0.04⟩, ⟨some (104910 - 75576), 0.06⟩,
      ⟨some (132590 - 104910), 0.08⟩, ⟨some (677278 - 132590), 0.093⟩,
      ⟨some (812728 - 677278), 0.103⟩, ⟨some (1354550 - 812728), 0.113⟩, ⟨none, 0.123⟩]
    mentalHealthThreshold := 1000000, mentalHealthRate := 0.01
    rentersCreditSingle := 60, rentersCreditMfj := 120 }

def ca2024 : CAYear :=
  { sdSingle := 5540, sdMfj := 11080, sdMfs := 5540, sdHoh := 11080
    bracketsSingle := [⟨some 10412, 0.01⟩, ⟨some (24684 - 10412), 0.02⟩,
      ⟨some (38959 - 24684), 0.04⟩, ⟨some (54081 - 38959), 0.06⟩,
      ⟨some (68350 - 54081), 0.08⟩, ⟨some (349137 - 68350), 0.093⟩,
      ⟨some (418961 - 349137), 0.103⟩, ⟨some (698271 - 418961), 0.113⟩, ⟨none, 0.123⟩]
    bracketsMfj := [⟨some 20824, 0.01⟩, ⟨some (49368 - 20824), 0.02⟩,
      ⟨some (77918 - 49368), 0.04⟩, ⟨some (108162 - 77918), 0.06⟩,
      ⟨some (136700 - 108162), 0.08⟩, ⟨some (698274 - 136700), 0.093⟩,
      ⟨some (837922 - 698274), 0.103⟩, ⟨some (1396542 - 837922), 0.113⟩, ⟨none, 0.123⟩]
    mentalHealthThreshold := 1000000, mentalHealthRate := 0.01
    rentersCreditSingle := 60, rentersCreditMfj := 120 }

/-- The 2025 CA entry agrees with 2024 on every embedded field (in the
source it differs only in the omitted sdiWageLimit/sdiRate). -/
def ca2025 : CAYear := ca2024

/-- `CALIFORNIA_DATA[yr] || CALIFORNIA_DATA[2025]`. -/
def caYearLookup (y : ℕ) : CAYear :=
  if y = 2023 then ca2023
  else if y = 2024 then ca2024
  else if y = 2025 then ca2025
  else ca2025

/-- One year of NEWYORK_DATA.  The eitcRate and nycBrackets fields are
never read by the computations under verification and are omitted. -/
structure NYYear where
  sdSingle : ℚ
  sdMfj : ℚ
  sdMfs : ℚ
  sdHoh : ℚ
  bracketsSingle : List Bracket
  bracketsMfj : List Bracket
  deriving DecidableEq

/-- State standard-deduction dictionary lookup, as for California. -/
def NYYear.sdOf (d : NYYear) : FilingStatus → Option ℚ
  | .single => some d.sdSingle
  | .mfj => some d.sdMfj
  | .mfs => some d.sdMfs
  | .hoh => some d.sdHoh
  | .qss => none

/-- The NY table is identical for 2023, 2024 and 2025 in the source. -/
def ny2023 : NYYear :=
  { sdSingle := 8000, sdMfj := 16050, sdMfs := 8000, sdHoh := 11200
    bracketsSingle := [⟨some 8500, 0.04⟩, ⟨some (11700 - 8500), 0.045⟩,
      ⟨some (13900 - 11700), 0.0525⟩, ⟨some (80650 - 13900), 0.0585⟩,
      ⟨some (215400 - 80650), 0.0625⟩, ⟨some (1077550 - 215400), 0.0685⟩,
      ⟨some (5000000 - 1077550), 0.0965⟩, ⟨some (25000000 - 5000000), 0.103⟩, ⟨none, 0.109⟩]
    bracketsMfj := [⟨some 17150, 0.04⟩, ⟨some (23600 - 17150), 0.045⟩,
      ⟨some (27900 - 23600), 0.0525⟩, ⟨some (161550 - 27900), 0.0585⟩,
      ⟨some (323200 - 161550), 0.0625⟩, ⟨some (2155350 - 323200), 0.0685⟩,
      ⟨some (5000000 - 2155350), 0.0965⟩, ⟨some (25000000 - 5000000), 0.103⟩, ⟨none, 0.109⟩] }

def ny2024 : NYYear := ny2023

def ny2025 : NYYear := ny2023

/-- `NEWYORK_DATA[yr] || NEWYORK_DATA[2025]`. -/
def nyYearLookup (y : ℕ) : NYYear :=
  if y = 2023 then ny2023
  else if y = 2024 then ny2024
  else if y = 2025 then ny2025
  else ny2025

/-- Federal constants as resolved by getTaxConstants for one filing
status: the bracket table and standard deduction for that status plus the
scalar constants read by the wizard. -/
structure FedConsts where
  brackets : List Bracket
  stdDeduction : ℚ
  seTaxRate : ℚ
  contrib401kLimit : ℚ
  contribIRALimit : ℚ
  contribHSASelf : ℚ
  studentLoanMax : ℚ
  educatorExpense : ℚ
  mileageRate : ℚ
  saltCap : ℚ
  ctcAmount : ℚ
  deriving DecidableEq

/-- Resolved California state constants (the fields of the spread CA year
object read by the wizard, with brackets and stdDeduction resolved). -/
structure CAConsts where
  brackets : List Bracket
  stdDeduction : ℚ
  mentalHealthThreshold : ℚ
  mentalHealthRate : ℚ
  rentersCreditSingle : ℚ
  rentersCreditMfj : ℚ
  deriving DecidableEq

/-- Resolved New York state constants. -/
structure NYConsts where
  brackets : List Bracket
  stdDeduction : ℚ
  deriving DecidableEq

/-- The state half of the getTaxConstants result. -/
inductive StateConsts
  | ca : CAConsts → StateConsts
  | ny : NYConsts → StateConsts
  deriving DecidableEq

/-- tax-data.js `getTaxConstants(year, stateId, filingStatus)`.
Returns the pair `(fed, state)`.  Dictionary fallbacks (`|| ...`) are
modelled with `Option.getD`; state bracket selection uses the mfj table
exactly when the filing status is mfj or qss, and the single table
otherwise, as in the source. -/
def getTaxConstants (year : ℕ) (stateId : Option String) (fs : FilingStatus) :
    FedConsts × Option StateConsts :=
  let fedYear := fedYearLookup year
  let fed : FedConsts :=
    { brackets := (fedYear.bracketsOf fs).getD fedYear.bracketsSingle
      stdDeduction := fedYear.sdOf fs
      seTaxRate := fedYear.seTaxRate
      contrib401kLimit := fedYear.contrib401kLimit
      contribIRALimit := fedYear.contribIRALimit
      contribHSASelf := fedYear.contribHSASelf
      studentLoanMax := fedYear.studentLoanMax
      educatorExpense := fedYear.educatorExpense
      mileageRate := fedYear.mileageRate
      saltCap := fedYear.saltCap
      ctcAmount := fedYear.ctcAmount }
  let state : Option StateConsts :=
    match stateId with
    | some st =>
      if st = "california" then
        let caYear := caYearLookup year
        some (.ca
          { brackets := if fs = .mfj ∨ fs = .qss then caYear.bracketsMfj else caYear.bracketsSingle
            stdDeduction := (caYear.sdOf fs).getD caYear.sdSingle
            mentalHealthThreshold := caYear.mentalHealthThreshold
            mentalHealthRate := caYear.mentalHealthRate
            rentersCreditSingle := caYear.rentersCreditSingle
            rentersCreditMfj := caYear.rentersCreditMfj })
      else if st = "newYork" then
        let nyYear := nyYearLookup year
        some (.ny
          { brackets := if fs = .mfj ∨ fs = .qss then nyYear.bracketsMfj else nyYear.bracketsSingle
            stdDeduction := (nyYear.sdOf fs).getD nyYear.sdSingle })
      else none
    | none => none
  (fed, state)

/-! ## The wizard session and filing computation (src/taxes/wizard.js) -/

/-- One box-12 coded amount on a W-2. -/
structure Box12 where
  code : String
  amount : ℚ
  deriving DecidableEq

/-- An extracted income record.  In the source a record carries only the
fields of its document type; an absent numeric field reads as undefined
and every use site coerces it with `|| 0` or a truthiness test, so absent
numeric fields are modelled as 0.  An absent box12_codes array behaves
like an empty list at every use site (`.some` / `.filter` over it). -/
structure IncomeRecord where
  doc_type : String
  wages : ℚ
  nonemployee_compensation : ℚ
  interest_income : ℚ
  ordinary_dividends : ℚ
  fed_income_tax_withheld : ℚ
  state_income_tax_withheld : ℚ
  state_tax_withheld : ℚ
  box12_codes : List Box12
  deriving DecidableEq

/-- The all-absent record; concrete records override the fields present
on their document. -/
def IncomeRecord.zero : IncomeRecord :=
  { doc_type := "", wages := 0, nonemployee_compensation := 0, interest_income := 0
    ordinary_dividends := 0, fed_income_tax_withheld := 0, state_income_tax_withheld := 0
    state_tax_withheld := 0, box12_codes := [] }

/-- The manualEntries map of the session; absent keys read as 0 (JS
truthiness of an absent numeric field equals that of 0). -/
structure ManualEntries where
  capitalGains : ℚ
  otherIncome : ℚ
  contribution401k : ℚ
  contributionIRA : ℚ
  contributionHSA : ℚ
  studentLoanInterest : ℚ
  seHealthInsurance : ℚ
  tuitionPaid : ℚ
  childcareExpenses : ℚ
  homeOfficeSqft : ℚ
  businessMiles : ℚ
  deriving DecidableEq

/-- The empty manualEntries map. -/
def ManualEntries.none : ManualEntries :=
  { capitalGains := 0, otherIncome := 0, contribution401k := 0, contributionIRA := 0
    contributionHSA := 0, studentLoanInterest := 0, seHealthInsurance := 0
    tuitionPaid := 0, childcareExpenses := 0, homeOfficeSqft := 0, businessMiles := 0 }

/-- The itemized-deduction inputs. -/
structure Itemized where
  mortgage : ℚ
  salt : ℚ
  charitable : ℚ
  medical : ℚ
  deriving DecidableEq

/-- The session fields read by the computations under verification.
gapAnswers is the answer map: a key is present exactly when the question
was answered, and answerGap stores a boolean value. -/
structure Session where
  taxYear : ℕ
  filingStatus : FilingStatus
  stateOfResidence : Option String
  childrenUnder17 : ℕ
  otherDependents : ℕ
  incomes : List IncomeRecord
  gapAnswers : List (String × Bool)
  manualEntries : ManualEntries
  deductionType : String
  itemized : Itemized

/-- Truthiness of `session.gapAnswers[id]`: true exactly when the key is
present with value true. -/
def gapAnswer (s : Session) (id : String) : Bool :=
  (s.gapAnswers.lookup id).getD false

/-- wizard.js `getStateId()`: maps the residence code to the constants
table key. -/
def getStateId (s : Session) : Option String :=
  match s.stateOfResidence with
  | some st =>
    if st = "CA" then some "california"
    else if st = "NY" then some "newYork"
    else none
  | none => none

namespace Wiz

/-- The constants pair used throughout computeAndRenderTaxes. -/
def consts (s : Session) : FedConsts × Option StateConsts :=
  getTaxConstants s.taxYear (getStateId s) s.filingStatus

/-- Sum of `wages` over W-2 records. -/
def totalW2 (s : Session) : ℚ :=
  (s.incomes.filter (fun i => i.doc_type = "W-2")).foldl (fun sum i => sum + i.wages) 0

/-- Sum of `nonemployee_compensation` over 1099-NEC records. -/
def totalNEC (s : Session) : ℚ :=
  (s.incomes.filter (fun i => i.doc_type = "1099-NEC")).foldl
    (fun sum i => sum + i.nonemployee_compensation) 0

/-- Sum of `interest_income` over 1099-INT records. -/
def totalINT (s : Session) : ℚ :=
  (s.incomes.filter (fun i => i.doc_type = "1099-INT")).foldl
    (fun sum i => sum + i.interest_income) 0

/-- Sum of `ordinary_dividends` over 1099-DIV records. -/
def totalDIV (s : Session) : ℚ :=
  (s.incomes.filter (fun i => i.doc_type = "1099-DIV")).foldl
    (fun sum i => sum + i.ordinary_dividends) 0

def totalCapGains (s : Session) : ℚ := s.manualEntries.capitalGains

def otherIncome (s : Session) : ℚ := s.manualEntries.otherIncome

def totalIncome (s : Session) : ℚ :=
  totalW2 s + totalNEC s + totalINT s + totalDIV s + totalCapGains s + otherIncome s

/-- `seTaxableIncome = totalNEC * 0.9235`. -/
def seTaxableIncome (s : Session) : ℚ := totalNEC s * 0.9235

/-- `seTax = totalNEC > 0 ? Math.round(seTaxableIncome * fed.seTaxRate) : 0`
(the `|| 0.153` fallback is dead: every year table carries seTaxRate). -/
def seTax (s : Session) : ℚ :=
  if 0 < totalNEC s then jsRound (seTaxableIncome s * (consts s).1.seTaxRate) else 0

/-- `seDeduction = Math.floor(seTax * 0.5)`. -/
def seDeduction (s : Session) : ℚ := jsFloor (seTax s * 0.5)

/-- The adjustments accumulation: each manual entry is added (capped at
its own statutory limit) only when its JS value is truthy, i.e. nonzero.
The w2_401k block of the source computes a sum whose guarded branch is
empty, so it has no effect and is not modelled. -/
def adjustments (s : Session) : ℚ :=
  seDeduction s
  + (if s.manualEntries.contribution401k ≠ 0 then
      min s.manualEntries.contribution401k (consts s).1.contrib401kLimit else 0)
  + (if s.manualEntries.contributionIRA ≠ 0 then
      min s.manualEntries.contributionIRA (consts s).1.contribIRALimit else 0)
  + (if s.manualEntries.contributionHSA ≠ 0 then
      min s.manualEntries.contributionHSA (consts s).1.contribHSASelf else 0)
  + (if s.manualEntries.studentLoanInterest ≠ 0 then
      min s.manualEntries.studentLoanInterest (consts s).1.studentLoanMax else 0)
  + (if s.manualEntries.seHealthInsurance ≠ 0 then s.manualEntries.seHealthInsurance else 0)
  + (if gapAnswer s "isEducator" then (consts s).1.educatorExpense else 0)

/-- `agi = totalIncome - adjustments` (not floored). -/
def agi (s : Session) : ℚ := totalIncome s - adjustments s

def stdDeduction (s : Session) : ℚ := (consts s).1.stdDeduction

/-- The itemized total, computed only when itemized is selected. -/
def itemizedTotal (s : Session) : ℚ :=
  if s.deductionType = "itemized" then
    s.itemized.mortgage + min s.itemized.salt (consts s).1.saltCap
      + s.itemized.charitable + s.itemized.medical
  else 0

def deduction (s : Session) : ℚ :=
  if s.deductionType = "itemized" then itemizedTotal s else stdDeduction s

/-- Home office deduction, self-employed only: `min(sqft * 5, 1500)`. -/
def homeOfficeDeduction (s : Session) : ℚ :=
  if s.manualEntries.homeOfficeSqft ≠ 0 ∧ 0 < totalNEC s then
    min (s.manualEntries.homeOfficeSqft * 5) 1500
  else 0

/-- Business mileage deduction, self-employed only. -/
def mileageDeduction (s : Session) : ℚ :=
  if s.manualEntries.businessMiles ≠ 0 ∧ 0 < totalNEC s then
    jsRound (s.manualEntries.businessMiles * (consts s).1.mileageRate)
  else 0

def taxableIncome (s : Session) : ℚ :=
  max 0 (agi s - deduction s - homeOfficeDeduction s - mileageDeduction s)

def fedIncomeTax (s : Session) : ℚ :=
  computeTaxFromBrackets (taxableIncome s) (consts s).1.brackets

end Wiz

/-- The credits record stored on the session by updateCreditsView. -/
structure Credits where
  ctc : ℚ
  education : ℚ
  renter : ℚ
  ev : ℚ
  childcare : ℚ
  deriving DecidableEq

/-- wizard.js updateCreditsView (lines 667-709): the credit amounts the
wizard stores on `taxSession.credits` before computeAndRenderTaxes runs.
computeAndRenderTaxes reads the stored `s.credits`; the wizard maintains
that field as exactly this function of the session, so the embedding
computes it in place. -/
def computeCredits (s : Session) : Credits :=
  let c := getTaxConstants s.taxYear (getStateId s) s.filingStatus
  { ctc := (s.childrenUnder17 : ℚ) * c.1.ctcAmount
    education :=
      if gapAnswer s "hasTuition" ∧ s.manualEntries.tuitionPaid ≠ 0 then
        min s.manualEntries.tuitionPaid 2500
      else 0
    renter :=
      if s.stateOfResidence = some "CA" ∧ gapAnswer s "isRenter" then
        match c.2 with
        | some (StateConsts.ca cc) =>
          if s.filingStatus = .mfj then cc.rentersCreditMfj else cc.rentersCreditSingle
        | _ => 60
      else 0
    ev := if gapAnswer s "hasEV" then 7500 else 0
    childcare :=
      if s.manualEntries.childcareExpenses ≠ 0 then
        jsRound (min s.manualEntries.childcareExpenses
          (if 2 ≤ s.childrenUnder17 then 6000 else 3000) * 0.20)
      else 0 }

namespace Wiz

/-- `totalCredits = ctc + education + ev + childcare` (the renter credit
is a state credit and is not part of the federal total). -/
def totalCredits (s : Session) : ℚ :=
  (computeCredits s).ctc + (computeCredits s).education
    + (computeCredits s).ev + (computeCredits s).childcare

/-- `fedTaxAfterCredits = Math.max(0, fedIncomeTax - totalCredits)`. -/
def fedTaxAfterCredits (s : Session) : ℚ := max 0 (fedIncomeTax s - totalCredits s)

def totalFedTax (s : Session) : ℚ := fedTaxAfterCredits s + seTax s

def totalFedWithheld (s : Session) : ℚ :=
  s.incomes.foldl (fun sum i => sum + i.fed_income_tax_withheld) 0

def fedResult (s : Session) : ℚ := totalFedWithheld s - totalFedTax s

/-- `i.state_income_tax_withheld || i.state_tax_withheld || 0`. -/
def totalStateWithheld (s : Session) : ℚ :=
  s.incomes.foldl
    (fun sum i => sum +
      (if i.state_income_tax_withheld ≠ 0 then i.state_income_tax_withheld
       else i.state_tax_withheld)) 0

end Wiz

/-- The CA fields of the filing record (set only on the California
branch). -/
structure CAFiling where
  caStdDeduction : ℚ
  caDeduction : ℚ
  caTaxableIncome : ℚ
  caBaseTax : ℚ
  caMHTax : ℚ
  caCredits : ℚ
  caTax : ℚ
  caResult : ℚ
  deriving DecidableEq

/-- The NY fields of the filing record. -/
structure NYFiling where
  nyStdDeduction : ℚ
  nyDeduction : ℚ
  nyTaxableIncome : ℚ
  nyTax : ℚ
  nyCredits : ℚ
  nyResult : ℚ
  deriving DecidableEq

namespace Wiz

/-- The California branch (wizard.js lines 822-840): runs exactly when
the resolved state constants are the California ones.  Note `caTax =
caBaseTax + caMHTax - caCredits` with no clamp at zero. -/
def caOf (s : Session) : Option CAFiling :=
  match (consts s).2 with
  | some (StateConsts.ca cc) =>
    let caStdDed := cc.stdDeduction
    let caTaxable := max 0 (agi s - caStdDed)
    let caTax0 := computeTaxFromBrackets caTaxable cc.brackets
    let mhTax :=
      if cc.mentalHealthThreshold < caTaxable then
        jsRound ((caTaxable - cc.mentalHealthThreshold) * cc.mentalHealthRate)
      else 0
    let caCr := (computeCredits s).renter
    some
      { caStdDeduction := caStdDed
        caDeduction := caStdDed
        caTaxableIncome := caTaxable
        caBaseTax := caTax0
        caMHTax := mhTax
        caCredits := caCr
        caTax := caTax0 + mhTax - caCr
        caResult := totalStateWithheld s - (caTax0 + mhTax - caCr) }
  | _ => none

/-- The New York branch (wizard.js lines 843-853). -/
def nyOf (s : Session) : Option NYFiling :=
  match (consts s).2 with
  | some (StateConsts.ny nc) =>
    let nyStdDed := nc.stdDeduction
    let nyTaxable := max 0 (agi s - nyStdDed)
    some
      { nyStdDeduction := nyStdDed
        nyDeduction := nyStdDed
        nyTaxableIncome := nyTaxable
        nyTax := computeTaxFromBrackets nyTaxable nc.brackets
        nyCredits := 0
        nyResult := totalStateWithheld s - computeTaxFromBrackets nyTaxable nc.brackets }
  | _ => none

end Wiz

/-- The filing record assembled by computeAndRenderTaxes (wizard.js
lines 791-820 plus the state branches). -/
structure Filing where
  totalW2Wages : ℚ
  totalNEC : ℚ
  totalInterest : ℚ
  totalDividends : ℚ
  capitalGains : ℚ
  otherIncome : ℚ
  totalIncome : ℚ
  adjustments : ℚ
  agi : ℚ
  deduction : ℚ
  deductionType : String
  standardDeduction : ℚ
  taxableIncome : ℚ
  fedIncomeTax : ℚ
  seTax : ℚ
  totalCredits : ℚ
  fedTaxAfterCredits : ℚ
  totalFedTax : ℚ
  totalFedWithheld : ℚ
  fedResult : ℚ
  totalStateWithheld : ℚ
  homeOfficeDeduction : ℚ
  mileageDeduction : ℚ
  ca : Option CAFiling
  ny : Option NYFiling
  deriving DecidableEq

/-- The pure computation of computeAndRenderTaxes (wizard.js lines
712-855 minus DOM rendering): the filing record derived from a session. -/
def computeFiling (s : Session) : Filing :=
  { totalW2Wages := Wiz.totalW2 s
    totalNEC := Wiz.totalNEC s
    totalInterest := Wiz.totalINT s
    totalDividends := Wiz.totalDIV s
    capitalGains := Wiz.totalCapGains s
    otherIncome := Wiz.otherIncome s
    totalIncome := Wiz.totalIncome s
    adjustments := Wiz.adjustments s
    agi := Wiz.agi s
    deduction := Wiz.deduction s
    deductionType := s.deductionType
    standardDeduction := Wiz.stdDeduction s
    taxableIncome := Wiz.taxableIncome s
    fedIncomeTax := Wiz.fedIncomeTax s
    seTax := Wiz.seTax s
    totalCredits := Wiz.totalCredits s
    fedTaxAfterCredits := Wiz.fedTaxAfterCredits s
    totalFedTax := Wiz.totalFedTax s
    totalFedWithheld := Wiz.totalFedWithheld s
    fedResult := Wiz.fedResult s
    totalStateWithheld := Wiz.totalStateWithheld s
    homeOfficeDeduction := Wiz.homeOfficeDeduction s
    mileageDeduction := Wiz.mileageDeduction s
    ca := Wiz.caOf s
    ny := Wiz.nyOf s }

/-! ## Gap analysis (src/taxes/gap-analysis.js) -/

/-- A gap-question descriptor.  The condition may raise (getGapQuestions
wraps its invocation in try/catch), modelled by `Except`.  The question,
hint and placeholder display strings carry no behaviour and are omitted. -/
structure GapRule where
  id : String
  condition : Session → Except String Bool
  followUp : String
  field : Option String
  docType : Option String

/-- Box-12 retirement plan codes tested by the has401k condition. -/
def retirementCodes : List String := ["D", "E", "F", "G", "AA", "BB"]

def gapHas401k : GapRule :=
  { id := "has401k"
    condition := fun s => .ok (!(s.incomes.any (fun i =>
      i.doc_type = "W-2" &&
        i.box12_codes.any (fun c => retirementCodes.contains c.code && 0 < c.amount))))
    followUp := "amount", field := some "contribution401k", docType := none }

def gapHasIRA : GapRule :=
  { id := "hasIRA", condition := fun _ => .ok true
    followUp := "amount", field := some "contributionIRA", docType := none }

def gapHasHSA : GapRule :=
  { id := "hasHSA"
    condition := fun s => .ok (!(s.incomes.any (fun i =>
      i.doc_type = "W-2" && i.box12_codes.any (fun c => c.code = "W" && 0 < c.amount))))
    followUp := "amount", field := some "contributionHSA", docType := none }

def gapHasMortgage : GapRule :=
  { id := "hasMortgage"
    condition := fun s => .ok (!(s.incomes.any (fun i => i.doc_type = "1098")))
    followUp := "amount_or_upload", field := some "mortgageInterest", docType := some "1098" }

def gapIsRenter : GapRule :=
  { id := "isRenter"
    condition := fun s => .ok (s.stateOfResidence = some "CA")
    followUp := "yesno", field := none, docType := none }

def gapHasSALT : GapRule :=
  { id := "hasSALT", condition := fun _ => .ok true
    followUp := "amount", field := some "saltExtra", docType := none }

def gapHasCharitable : GapRule :=
  { id := "hasCharitable", condition := fun _ => .ok true
    followUp := "amount", field := some "charitableDonations", docType := none }

def gapHasStudentLoan : GapRule :=
  { id := "hasStudentLoan"
    condition := fun s => .ok (!(s.incomes.any (fun i => i.doc_type = "1098-E")))
    followUp := "amount_or_upload", field := some "studentLoanInterest", docType := some "1098-E" }

def gapHasTuition : GapRule :=
  { id := "hasTuition"
    condition := fun s => .ok (!(s.incomes.any (fun i => i.doc_type = "1098-T")))
    followUp := "amount_or_upload", field := some "tuitionPaid", docType := some "1098-T" }

def gapIsEducator : GapRule :=
  { id := "isEducator", condition := fun _ => .ok true
    followUp := "yesno", field := none, docType := none }

def gapHasSoldStocks : GapRule :=
  { id := "hasSoldStocks"
    condition := fun s => .ok (!(s.incomes.any (fun i => i.doc_type = "1099-B")))
    followUp := "amount_or_upload", field := some "capitalGains", docType := some "1099-B" }

def gapHasSEHealthInsurance : GapRule :=
  { id := "hasSEHealthInsurance"
    condition := fun s => .ok (s.incomes.any (fun i => i.doc_type = "1099-NEC"))
    followUp := "amount", field := some "seHealthInsurance", docType := none }

def gapHasHomeOffice : GapRule :=
  { id := "hasHomeOffice"
    condition := fun s => .ok (s.incomes.any (fun i => i.doc_type = "1099-NEC"))
    followUp := "amount", field := some "homeOfficeSqft", docType := none }

def gapHasBusinessMileage : GapRule :=
  { id := "hasBusinessMileage"
    condition := fun s => .ok (s.incomes.any (fun i => i.doc_type = "1099-NEC"))
    followUp := "amount", field := some "businessMiles", docType := none }

def gapHasEV : GapRule :=
  { id := "hasEV", condition := fun _ => .ok true
    followUp := "yesno", field := none, docType := none }

def gapHasEnergyImprovements : GapRule :=
  { id := "hasEnergyImprovements", condition := fun _ => .ok true
    followUp := "yesno", field := none, docType := none }

def gapHasChildcare : GapRule :=
  { id := "hasChildcare"
    condition := fun s => .ok (0 < s.childrenUnder17 || 0 < s.otherDependents)
    followUp := "amount", field := some "childcareExpenses", docType := none }

def gapHasOtherIncome : GapRule :=
  { id := "hasOtherIncome", condition := fun _ => .ok true
    followUp := "amount", field := some "otherIncome", docType := none }

/-- GAP_RULES, in declaration order. -/
def GAP_RULES : List GapRule :=
  [gapHas401k, gapHasIRA, gapHasHSA, gapHasMortgage, gapIsRenter, gapHasSALT,
   gapHasCharitable, gapHasStudentLoan, gapHasTuition, gapIsEducator,
   gapHasSoldStocks, gapHasSEHealthInsurance, gapHasHomeOffice,
   gapHasBusinessMileage, gapHasEV, gapHasEnergyImprovements, gapHasChildcare,
   gapHasOtherIncome]

/-- The per-rule filter of getGapQuestions: answered questions are
dropped; the condition is invoked inside try/catch and a raised condition
counts as not applicable. -/
def gapKeep (s : Session) (r : GapRule) : Bool :=
  if (s.gapAnswers.lookup r.id).isSome then false
  else
    match r.condition s with
    | .ok b => b
    | .error _ => false

/-- gap-analysis.js `getGapQuestions(session)`. -/
def getGapQuestions (s : Session) : List GapRule :=
  GAP_RULES.filter (gapKeep s)

/-! ## The rules evaluation engine (src/taxes/rules.js) -/

/-- Verdict statuses. -/
inductive Status
  | pass
  | fail
  | warn
  | skip
  deriving DecidableEq, Repr

/-- The object returned by a rule check. -/
structure CheckResult where
  status : Status
  currentValue : String
  expectedValue : String
  extracted : Bool
  detail : String
  deriving DecidableEq

/-- A rule descriptor over an abstract state type σ.  The check may raise
(runRulesEngine wraps it in try/catch), modelled by `Except`.  The
taxCode citation object is descriptive metadata never branched on and is
omitted.  The engine is parameterized by its rule table: the source
closes over the global RULES table, which is one instance. -/
structure Rule (σ : Type) where
  id : String
  name : String
  scenarios : List String
  stage : String
  type : String
  severity : String
  check : σ → Except String CheckResult

/-- One engine result: the rule metadata spread together with the check
result fields. -/
structure RuleResult where
  id : String
  name : String
  scenarios : List String
  stage : String
  type : String
  severity : String
  status : Status
  currentValue : String
  expectedValue : String
  extracted : Bool
  detail : String
  deriving DecidableEq

/-- The catch branch of the engine: a raised check degrades to a skip
verdict carrying the error message. -/
def errorResult {σ : Type} (r : Rule σ) (e : String) : RuleResult :=
  { id := r.id, name := r.name, scenarios := r.scenarios, stage := r.stage
    type := r.type, severity := r.severity
    status := .skip, currentValue := "—", expectedValue := "—"
    extracted := false, detail := "Error running check: " ++ e }

/-- One rule invocation inside the try/catch wrapper. -/
def evalRule {σ : Type} (state : σ) (r : Rule σ) : RuleResult :=
  match r.check state with
  | .ok res =>
    { id := r.id, name := r.name, scenarios := r.scenarios, stage := r.stage
      type := r.type, severity := r.severity
      status := res.status, currentValue := res.currentValue
      expectedValue := res.expectedValue, extracted := res.extracted
      detail := res.detail }
  | .error e => errorResult r e

/-- `scenarioFilter ? RULES.filter(...) : RULES`: an absent filter keeps
the whole table. -/
def applicableRules {σ : Type} (rules : List (Rule σ)) (flt : Option String) :
    List (Rule σ) :=
  match flt with
  | some f => rules.filter (fun r => r.scenarios.contains f)
  | none => rules

/-- The combined summary object (the compliance/savings sub-summaries
repeat the same counting on sub-lists and are not needed by any claim). -/
structure Summary where
  total : ℕ
  passed : ℕ
  failed : ℕ
  warnings : ℕ
  skipped : ℕ
  score : ℤ
  deriving DecidableEq

/-- The points accumulation of the score: pass = 1, warn = 0.5, fail = 0. -/
def enginePoints (rs : List RuleResult) : ℚ :=
  rs.foldl
    (fun sum r =>
      sum + (if r.status = Status.pass then 1 else if r.status = Status.warn then 1/2 else 0))
    0

/-- The engine result: the verdict list and the combined summary. -/
structure EngineResult where
  results : List RuleResult
  summary : Summary

/-- rules.js `runRulesEngine(state, scenarioFilter)` (lines 1711-1787),
parameterized by the rule table it closes over. -/
def runRulesEngine {σ : Type} (rules : List (Rule σ)) (state : σ)
    (flt : Option String) : EngineResult :=
  let applicable := applicableRules rules flt
  let results := applicable.map (evalRule state)
  let allScored := results.filter (fun r => r.status ≠ Status.skip)
  { results := results
    summary :=
      { total := results.length
        passed := (results.filter (fun r => r.status = Status.pass)).length
        failed := (results.filter (fun r => r.status = Status.fail)).length
        warnings := (results.filter (fun r => r.status = Status.warn)).length
        skipped := (results.filter (fun r => r.status = Status.skip)).length
        score :=
          if 0 < allScored.length then
            jsRoundZ (enginePoints allScored / (allScored.length : ℚ) * 100)
          else 0 } }

/-! ## Concrete sessions used by the end-to-end and numeric claims -/

/-- The single W-2 of the end-to-end scenario: wages 80000, federal
withholding 9000. -/
def c1w2 : IncomeRecord :=
  { IncomeRecord.zero with doc_type := "W-2", wages := 80000, fed_income_tax_withheld := 9000 }

/-- The end-to-end scenario session: single filer, 2025, one W-2, no
other income, no manual entries, no gap answers, standard deduction. -/
def c1session : Session :=
  { taxYear := 2025, filingStatus := .single, stateOfResidence := none
    childrenUnder17 := 0, otherDependents := 0, incomes := [c1w2]
    gapAnswers := [], manualEntries := ManualEntries.none
    deductionType := "standard", itemized := ⟨0, 0, 0, 0⟩ }

lemma c1_consts : Wiz.consts c1session =
    ({ brackets := fed2025.bracketsSingle, stdDeduction := 15000, seTaxRate := 0.153
       contrib401kLimit := 23500, contribIRALimit := 7000, contribHSASelf := 4300
       studentLoanMax := 2500, educatorExpense := 300, mileageRate := 0.70
       saltCap := 10000, ctcAmount := 2000 }, none) := by
  simp [Wiz.consts, getTaxConstants, getStateId, fedYearLookup, fed2025,
    FedYear.sdOf, FedYear.bracketsOf, c1session]

lemma c1_totalNEC : Wiz.totalNEC c1session = 0 := by
  simp [Wiz.totalNEC, c1session, c1w2, IncomeRecord.zero]

lemma c1_seTax : Wiz.seTax c1session = 0 := by
  rw [Wiz.seTax, c1_totalNEC]
  norm_num

lemma c1_adjustments : Wiz.adjustments c1session = 0 := by
  rw [Wiz.adjustments, Wiz.seDeduction, c1_seTax]
  simp [c1session, ManualEntries.none, gapAnswer, jsFloor]

lemma c1_agi : Wiz.agi c1session = 80000 := by
  rw [Wiz.agi, c1_adjustments, Wiz.totalIncome, c1_totalNEC]
  simp [Wiz.totalW2, Wiz.totalINT, Wiz.totalDIV, Wiz.totalCapGains, Wiz.otherIncome,
    c1session, c1w2, IncomeRecord.zero, ManualEntries.none]

lemma c1_taxable : Wiz.taxableIncome c1session = 65000 := by
  rw [Wiz.taxableIncome, c1_agi, Wiz.deduction, Wiz.homeOfficeDeduction, Wiz.mileageDeduction,
    Wiz.stdDeduction, c1_consts]
  simp [c1session, ManualEntries.none, c1_totalNEC]
  norm_num

/-- The exact accumulated 2025 single-bracket tax on 65000 is
11925 times 0.10 plus 36550 times 0.12 plus 16525 times 0.22 = 9214
exactly (an integer: the half-units 1192.5 and 3635.5 cancel), so the
single final Math.round of the source yields 9214, not the per-bracket
rounded 9215 of the spec text. -/
lemma c1_fedTax : Wiz.fedIncomeTax c1session = 9214 := by
  rw [Wiz.fedIncomeTax, c1_taxable, c1_consts]
  norm_num [computeTaxFromBrackets, taxCore, fed2025, bracketAmt, jsRound, jsRoundZ]

lemma c1_credits : Wiz.totalCredits c1session = 0 := by
  simp [Wiz.totalCredits, computeCredits, c1session, ManualEntries.none, gapAnswer]

lemma c1_result : Wiz.fedResult c1session = -214 := by
  rw [Wiz.fedResult, Wiz.totalFedTax, Wiz.fedTaxAfterCredits, c1_fedTax, c1_credits, c1_seTax]
  norm_num [Wiz.totalFedWithheld, c1session, c1w2, IncomeRecord.zero]

/-- C1, counterexample: on the end-to-end scenario session the code does
not produce a federal income tax of 9215 (and hence not a net result of
minus 215 either): the single final round of the exact bracket sum 9214
gives 9214. -/
theorem c1_end_to_end_counterexample :
    ¬ ((computeFiling c1session).fedIncomeTax = 9215 ∧
       (computeFiling c1session).fedResult = -215) := by
  intro h
  have h1 : (computeFiling c1session).fedIncomeTax = 9214 := c1_fedTax
  rw [h.1] at h1
  norm_num at h1

/-- C1, amended: for the session with filing status single, tax year
2025, exactly one W-2 income record with wages 80000 and federal
withholding 9000, no other income records, no manual entries, no
credits, and the standard deduction selected, the filing computation
produces AGI = 80000, taxable income = 65000, federal income tax = 9214
(the exact marginal sum 1192.5 + 4386 + 3635.5 = 9214 rounded once at
the end), and net federal result = 9000 - 9214 = -214 (amount owed
214). -/
theorem c1_end_to_end :
    (computeFiling c1session).agi = 80000 ∧
    (computeFiling c1session).taxableIncome = 65000 ∧
    (computeFiling c1session).fedIncomeTax = 9214 ∧
    (computeFiling c1session).fedResult = -214 :=
  ⟨c1_agi, c1_taxable, c1_fedTax, c1_result⟩

/-- C4: for every session, the computed filing record satisfies the
taxable-income identity, the credit floor at zero, and the total-tax
decomposition, and the federal income tax is the bracket calculator
applied to the taxable income. -/
theorem c4_filing_identities (s : Session) :
    (computeFiling s).taxableIncome =
      max 0 ((computeFiling s).agi - (computeFiling s).deduction
        - (computeFiling s).homeOfficeDeduction - (computeFiling s).mileageDeduction) ∧
    (computeFiling s).fedIncomeTax =
      computeTaxFromBrackets (computeFiling s).taxableIncome (Wiz.consts s).1.brackets ∧
    (computeFiling s).fedTaxAfterCredits =
      max 0 ((computeFiling s).fedIncomeTax - (computeFiling s).totalCredits) ∧
    (computeFiling s).totalFedTax =
      (computeFiling s).fedTaxAfterCredits + (computeFiling s).seTax :=
  ⟨rfl, rfl, rfl, rfl⟩

/-- Session with a single 1099-NEC of 100000, tax year 2025. -/
def c9session : Session :=
  { taxYear := 2025, filingStatus := .single, stateOfResidence := none
    childrenUnder17 := 0, otherDependents := 0
    incomes := [{ IncomeRecord.zero with doc_type := "1099-NEC", nonemployee_compensation := 100000 }]
    gapAnswers := [], manualEntries := ManualEntries.none
    deductionType := "standard", itemized := ⟨0, 0, 0, 0⟩ }

/-- Session with a single 1099-NEC of minus 100000 (a representable
record: JS numeric fields are signed). -/
def c9neg : Session :=
  { taxYear := 2025, filingStatus := .single, stateOfResidence := none
    childrenUnder17 := 0, otherDependents := 0
    incomes := [{ IncomeRecord.zero with doc_type := "1099-NEC", nonemployee_compensation := -100000 }]
    gapAnswers := [], manualEntries := ManualEntries.none
    deductionType := "standard", itemized := ⟨0, 0, 0, 0⟩ }

lemma c9_totalNEC : Wiz.totalNEC c9session = 100000 := by
  simp [Wiz.totalNEC, c9session, IncomeRecord.zero]

lemma c9_rate : (Wiz.consts c9session).1.seTaxRate = 0.153 := by
  simp [Wiz.consts, getTaxConstants, getStateId, fedYearLookup, fed2025, c9session]

lemma c9_seTax : Wiz.seTax c9session = 14130 := by
  rw [Wiz.seTax, Wiz.seTaxableIncome, c9_totalNEC, c9_rate]
  norm_num [jsRound, jsRoundZ]

lemma c9_seDeduction : Wiz.seDeduction c9session = 7065 := by
  rw [Wiz.seDeduction, c9_seTax]
  norm_num [jsFloor]

lemma c9neg_totalNEC : Wiz.totalNEC c9neg = -100000 := by
  simp [Wiz.totalNEC, c9neg, IncomeRecord.zero]

lemma c9neg_rate : (Wiz.consts c9neg).1.seTaxRate = 0.153 := by
  simp [Wiz.consts, getTaxConstants, getStateId, fedYearLookup, fed2025, c9neg]

/-- C9, counterexample: on a session whose total 1099-NEC compensation
is negative the code returns an SE tax of 0 (the `totalNEC > 0` guard),
while the claimed formula round(0.9235 x income x rate) evaluates to
-14130, so the claim quantified over every session is false. -/
theorem c9_se_tax_counterexample :
    (computeFiling c9neg).seTax ≠
      jsRound (0.9235 * (computeFiling c9neg).totalNEC * (Wiz.consts c9neg).1.seTaxRate) := by
  show Wiz.seTax c9neg ≠ _
  have h0 : Wiz.seTax c9neg = 0 := by
    rw [Wiz.seTax, c9neg_totalNEC]
    norm_num
  rw [h0]
  show (0 : ℚ) ≠ jsRound (0.9235 * Wiz.totalNEC c9neg * (Wiz.consts c9neg).1.seTaxRate)
  rw [c9neg_totalNEC, c9neg_rate]
  norm_num [jsRound, jsRoundZ]

/-- C9, amended: for every session whose total 1099-NEC nonemployee
compensation is nonnegative, SE tax = round(0.9235 x SE income x
SE-tax-rate) and SE deduction = floor(0.5 x SE tax); in particular, for
total nonemployee compensation 100000 with the 2025 rate 0.153, SE tax =
14130 and SE deduction = 7065.  (For a negative total the code returns 0
instead of the formula value; see the counterexample.) -/
theorem c9_se_tax :
    (∀ s : Session, 0 ≤ Wiz.totalNEC s →
      (computeFiling s).seTax =
        jsRound (0.9235 * (computeFiling s).totalNEC * (Wiz.consts s).1.seTaxRate) ∧
      Wiz.seDeduction s = jsFloor (0.5 * (computeFiling s).seTax)) ∧
    (computeFiling c9session).seTax = 14130 ∧
    Wiz.seDeduction c9session = 7065 := by
  refine ⟨fun s h => ⟨?_, ?_⟩, c9_seTax, c9_seDeduction⟩
  · show Wiz.seTax s = jsRound (0.9235 * Wiz.totalNEC s * (Wiz.consts s).1.seTaxRate)
    rw [Wiz.seTax, Wiz.seTaxableIncome]
    rcases lt_or_eq_of_le h with hlt | heq
    · rw [if_pos hlt]
      congr 1
      ring
    · rw [if_neg (by rw [← heq]; exact lt_irrefl 0), ← heq]
      norm_num [jsRound, jsRoundZ]
  · show Wiz.seDeduction s = jsFloor (0.5 * Wiz.seTax s)
    rw [Wiz.seDeduction, mul_comm]

/-- C9, witness: the amended theorem applied at the concrete
100000-compensation session. -/
theorem c9_se_tax_witness :
    0 ≤ Wiz.totalNEC c9session ∧
    ((computeFiling c9session).seTax =
        jsRound (0.9235 * (computeFiling c9session).totalNEC * (Wiz.consts c9session).1.seTaxRate) ∧
      Wiz.seDeduction c9session = jsFloor (0.5 * (computeFiling c9session).seTax)) := by
  have hn : (0 : ℚ) ≤ Wiz.totalNEC c9session := by
    rw [c9_totalNEC]
    norm_num
  exact ⟨hn, c9_se_tax.1 c9session hn⟩

/-- A California renter session with small income: 2025, single, one
W-2 with wages 6000, renter gap answer yes, no withholding. -/
def c10session : Session :=
  { taxYear := 2025, filingStatus := .single, stateOfResidence := some "CA"
    childrenUnder17 := 0, otherDependents := 0
    incomes := [{ IncomeRecord.zero with doc_type := "W-2", wages := 6000 }]
    gapAnswers := [("isRenter", true)], manualEntries := ManualEntries.none
    deductionType := "standard", itemized := ⟨0, 0, 0, 0⟩ }

/-- The CA filing record computed on `c10session`: base tax 5 on taxable
460, no surtax, renter credit 60, hence total CA tax -55 and "refund" 55
against zero withholding. -/
def c10g : CAFiling :=
  { caStdDeduction := 5540, caDeduction := 5540, caTaxableIncome := 460
    caBaseTax := 5, caMHTax := 0, caCredits := 60, caTax := -55, caResult := 55 }

lemma c10_state : (Wiz.consts c10session).2 =
    some (StateConsts.ca
      { brackets := ca2024.bracketsSingle, stdDeduction := 5540
        mentalHealthThreshold := 1000000, mentalHealthRate := 0.01
        rentersCreditSingle := 60, rentersCreditMfj := 120 }) := by
  simp [Wiz.consts, getTaxConstants, getStateId, c10session, caYearLookup, ca2025, ca2024,
    CAYear.sdOf]

lemma c10_totalNEC : Wiz.totalNEC c10session = 0 := by
  simp [Wiz.totalNEC, c10session, IncomeRecord.zero]

lemma c10_seTax : Wiz.seTax c10session = 0 := by
  rw [Wiz.seTax, c10_totalNEC]
  norm_num

lemma c10_agi : Wiz.agi c10session = 6000 := by
  rw [Wiz.agi, Wiz.adjustments, Wiz.seDeduction, c10_seTax, Wiz.totalIncome, c10_totalNEC]
  simp [Wiz.totalW2, Wiz.totalINT, Wiz.totalDIV, Wiz.totalCapGains, Wiz.otherIncome,
    c10session, IncomeRecord.zero, ManualEntries.none, gapAnswer, jsFloor, List.lookup]

lemma c10_renter : (computeCredits c10session).renter = 60 := by
  simp [computeCredits, c10session, gapAnswer, getTaxConstants, getStateId, caYearLookup,
    ca2025, ca2024, CAYear.sdOf]

lemma c10_stateWithheld : Wiz.totalStateWithheld c10session = 0 := by
  simp [Wiz.totalStateWithheld, c10session, IncomeRecord.zero]

lemma c10_caTax0 : computeTaxFromBrackets 460 ca2024.bracketsSingle = 5 := by
  norm_num [computeTaxFromBrackets, taxCore, ca2024, bracketAmt, jsRound, jsRoundZ]

lemma c10_ca : Wiz.caOf c10session = some c10g := by
  unfold Wiz.caOf
  rw [c10_state]
  simp only [c10_agi, c10_renter, c10_stateWithheld]
  norm_num [c10_caTax0, c10g]

/-- C10: the California tax after credits is not floored at zero: on
every session taking the CA branch, caTax = caBaseTax + caMHTax -
caCredits with no clamp; there is a session (a CA renter with taxable
income 460) whose computed caTax is -55 and whose state result 55
exceeds the zero state withholding; by contrast the federal tax after
credits is always clamped at zero. -/
theorem c10_ca_tax_unclamped :
    (∀ (s : Session) (g : CAFiling), Wiz.caOf s = some g →
      g.caTax = g.caBaseTax + g.caMHTax - g.caCredits) ∧
    (∃ g : CAFiling, (computeFiling c10session).ca = some g ∧
      g.caTax < 0 ∧ (computeFiling c10session).totalStateWithheld < g.caResult) ∧
    (∀ s : Session, 0 ≤ (computeFiling s).fedTaxAfterCredits) := by
  refine ⟨?_, ⟨c10g, c10_ca, by norm_num [c10g], ?_⟩, fun s => le_max_left 0 _⟩
  · intro s g h
    unfold Wiz.caOf at h
    cases hm : (Wiz.consts s).2 with
    | none =>
      rw [hm] at h
      simp at h
    | some sc =>
      rw [hm] at h
      cases sc with
      | ca cc =>
        simp only [Option.some.injEq] at h
        subst h
        rfl
      | ny nc => simp at h
  · show Wiz.totalStateWithheld c10session < c10g.caResult
    rw [c10_stateWithheld]
    norm_num [c10g]

/-- C10, witness: the identity and the federal clamp instantiated on the
concrete renter session. -/
theorem c10_ca_tax_unclamped_witness :
    c10g.caTax = c10g.caBaseTax + c10g.caMHTax - c10g.caCredits ∧
    0 ≤ (computeFiling c10session).fedTaxAfterCredits :=
  ⟨c10_ca_tax_unclamped.1 c10session c10g c10_ca,
   c10_ca_tax_unclamped.2.2 c10session⟩

/-- The state bracket table resolved by getTaxConstants. -/
def stateBracketsOf (y : ℕ) (st : Option String) (fs : FilingStatus) : Option (List Bracket) :=
  match (getTaxConstants y st fs).2 with
  | some (StateConsts.ca c) => some c.brackets
  | some (StateConsts.ny c) => some c.brackets
  | none => none

/-- The state standard deduction resolved by getTaxConstants. -/
def stateStdDedOf (y : ℕ) (st : Option String) (fs : FilingStatus) : Option ℚ :=
  match (getTaxConstants y st fs).2 with
  | some (StateConsts.ca c) => some c.stdDeduction
  | some (StateConsts.ny c) => some c.stdDeduction
  | none => none

/-- C7, counterexample: for California 2025 the head-of-household state
standard deduction resolved by getTaxConstants is 11080, the dedicated
hoh entry of the state table, not the single amount 5540 — so the claim
that the standard deduction maps head-of-household onto the single table
is false. -/
theorem c7_state_mapping_counterexample :
    stateStdDedOf 2025 (some "california") .hoh = some 11080 ∧
    stateStdDedOf 2025 (some "california") .single = some 5540 ∧
    stateStdDedOf 2025 (some "california") .hoh ≠
      stateStdDedOf 2025 (some "california") .single := by
  refine ⟨?_, ?_, ?_⟩ <;>
    norm_num [stateStdDedOf, getTaxConstants, caYearLookup, ca2025, ca2024, CAYear.sdOf]

/-- C7, amended: for every year and both California and New York,
getTaxConstants resolves the state bracket table by mapping
married-filing-separately and head-of-household onto the single table
and qualifying-surviving-spouse onto the married-filing-jointly table;
for the standard deduction, each status uses the state table's own
per-status entry (the mfs entry coincides with single, the hoh entry is
its own larger amount), and qss, absent from the state deduction tables,
falls back to the single amount (not mfj). -/
lemma ca_brackets_resolved (y : ℕ) (fs : FilingStatus) :
    stateBracketsOf y (some "california") fs =
      some (if fs = FilingStatus.mfj ∨ fs = FilingStatus.qss
        then (caYearLookup y).bracketsMfj else (caYearLookup y).bracketsSingle) := by
  simp [stateBracketsOf, getTaxConstants]

lemma ny_brackets_resolved (y : ℕ) (fs : FilingStatus) :
    stateBracketsOf y (some "newYork") fs =
      some (if fs = FilingStatus.mfj ∨ fs = FilingStatus.qss
        then (nyYearLookup y).bracketsMfj else (nyYearLookup y).bracketsSingle) := by
  simp [stateBracketsOf, getTaxConstants]

lemma ca_sd_resolved (y : ℕ) (fs : FilingStatus) :
    stateStdDedOf y (some "california") fs =
      some (((caYearLookup y).sdOf fs).getD (caYearLookup y).sdSingle) := by
  simp [stateStdDedOf, getTaxConstants]

lemma ny_sd_resolved (y : ℕ) (fs : FilingStatus) :
    stateStdDedOf y (some "newYork") fs =
      some (((nyYearLookup y).sdOf fs).getD (nyYearLookup y).sdSingle) := by
  simp [stateStdDedOf, getTaxConstants]

lemma ca_sdMfs_eq (y : ℕ) : (caYearLookup y).sdMfs = (caYearLookup y).sdSingle := by
  unfold caYearLookup
  split_ifs <;> rfl

lemma ny_sdMfs_eq (y : ℕ) : (nyYearLookup y).sdMfs = (nyYearLookup y).sdSingle := by
  unfold nyYearLookup
  split_ifs <;> rfl

theorem c7_state_mapping (y : ℕ) :
    (stateBracketsOf y (some "california") .mfs = stateBracketsOf y (some "california") .single ∧
     stateBracketsOf y (some "california") .hoh = stateBracketsOf y (some "california") .single ∧
     stateBracketsOf y (some "california") .qss = stateBracketsOf y (some "california") .mfj) ∧
    (stateBracketsOf y (some "newYork") .mfs = stateBracketsOf y (some "newYork") .single ∧
     stateBracketsOf y (some "newYork") .hoh = stateBracketsOf y (some "newYork") .single ∧
     stateBracketsOf y (some "newYork") .qss = stateBracketsOf y (some "newYork") .mfj) ∧
    (stateStdDedOf y (some "california") .mfs = stateStdDedOf y (some "california") .single ∧
     stateStdDedOf y (some "newYork") .mfs = stateStdDedOf y (some "newYork") .single ∧
     stateStdDedOf y (some "california") .qss = stateStdDedOf y (some "california") .single ∧
     stateStdDedOf y (some "newYork") .qss = stateStdDedOf y (some "newYork") .single) := by
  refine ⟨⟨?_, ?_, ?_⟩, ⟨?_, ?_, ?_⟩, ?_, ?_, ?_, ?_⟩
  · rw [ca_brackets_resolved, ca_brackets_resolved]
    simp
  · rw [ca_brackets_resolved, ca_brackets_resolved]
    simp
  · rw [ca_brackets_resolved, ca_brackets_resolved]
    simp
  · rw [ny_brackets_resolved, ny_brackets_resolved]
    simp
  · rw [ny_brackets_resolved, ny_brackets_resolved]
    simp
  · rw [ny_brackets_resolved, ny_brackets_resolved]
    simp
  · rw [ca_sd_resolved, ca_sd_resolved]
    simp [CAYear.sdOf, ca_sdMfs_eq]
  · rw [ny_sd_resolved, ny_sd_resolved]
    simp [NYYear.sdOf, ny_sdMfs_eq]
  · rw [ca_sd_resolved, ca_sd_resolved]
    simp [CAYear.sdOf]
  · rw [ny_sd_resolved, ny_sd_resolved]
    simp [NYYear.sdOf]

/-! ## Engine theorems -/

/-- A rule is applicable under a scenario filter when the filter is
absent or its tag list contains the filter. -/
def appliesTo (flt : Option String) {σ : Type} (r : Rule σ) : Prop :=
  match flt with
  | some f => r.scenarios.contains f = true
  | none => True

/-- C2: rule isolation.  For every state, scenario filter and rule table
containing a rule whose check raises: the engine still yields exactly
one verdict per applicable rule; the raising rule's verdict is the skip
verdict carrying the error explanation; and the verdicts of all other
applicable rules are exactly those produced when the raising rule is
absent from the table. -/
theorem c2_rule_isolation {σ : Type} (state : σ) (flt : Option String)
    (l1 l2 : List (Rule σ)) (r : Rule σ) (e : String)
    (happ : appliesTo flt r) (herr : r.check state = Except.error e) :
    (runRulesEngine (l1 ++ r :: l2) state flt).results
      = (runRulesEngine l1 state flt).results
        ++ errorResult r e :: (runRulesEngine l2 state flt).results ∧
    (runRulesEngine (l1 ++ l2) state flt).results
      = (runRulesEngine l1 state flt).results ++ (runRulesEngine l2 state flt).results ∧
    (errorResult r e).status = Status.skip ∧
    (errorResult r e).detail = "Error running check: " ++ e ∧
    (runRulesEngine (l1 ++ r :: l2) state flt).results.length
      = (applicableRules (l1 ++ r :: l2) flt).length := by
  have heval : evalRule state r = errorResult r e := by
    unfold evalRule
    rw [herr]
  refine ⟨?_, ?_, rfl, rfl, ?_⟩
  · show (applicableRules (l1 ++ r :: l2) flt).map (evalRule state)
        = (applicableRules l1 flt).map (evalRule state)
          ++ errorResult r e :: (applicableRules l2 flt).map (evalRule state)
    cases flt with
    | none => simp [applicableRules, heval]
    | some f =>
      have hp : r.scenarios.contains f = true := happ
      have hmem : f ∈ r.scenarios := by simpa using hp
      simp [applicableRules, List.filter_append, List.filter_cons, hmem, heval]
  · show (applicableRules (l1 ++ l2) flt).map (evalRule state)
        = (applicableRules l1 flt).map (evalRule state)
          ++ (applicableRules l2 flt).map (evalRule state)
    cases flt with
    | none => simp [applicableRules]
    | some f => simp [applicableRules, List.filter_append]
  · exact List.length_map _ _

/-- A concrete always-passing rule tagged fed-1099, over a trivial
state type. -/
def wRulePass : Rule ℕ :=
  { id := "w-pass", name := "always pass", scenarios := ["fed-1099"], stage := "income"
    type := "compliance", severity := "info"
    check := fun _ => Except.ok
      { status := .pass, currentValue := "1", expectedValue := "1"
        extracted := true, detail := "ok" } }

/-- A concrete rule tagged fed-1099 whose check raises. -/
def wRuleBoom : Rule ℕ :=
  { id := "w-boom", name := "always raises", scenarios := ["fed-1099"], stage := "income"
    type := "compliance", severity := "info"
    check := fun _ => Except.error "boom" }

/-- A concrete rule tagged only ca-w2. -/
def wRuleOther : Rule ℕ :=
  { id := "w-other", name := "other scenario", scenarios := ["ca-w2"], stage := "income"
    type := "compliance", severity := "info"
    check := fun _ => Except.ok
      { status := .pass, currentValue := "1", expectedValue := "1"
        extracted := true, detail := "ok" } }

/-- C2, witness: the isolation theorem instantiated on a three-rule
table whose middle rule raises, under the fed-1099 filter. -/
theorem c2_rule_isolation_witness :
    appliesTo (some "fed-1099") wRuleBoom ∧
    ((runRulesEngine ([wRulePass] ++ wRuleBoom :: [wRuleOther]) 0 (some "fed-1099")).results
        = (runRulesEngine [wRulePass] 0 (some "fed-1099")).results
          ++ errorResult wRuleBoom "boom"
            :: (runRulesEngine [wRuleOther] 0 (some "fed-1099")).results ∧
      (runRulesEngine ([wRulePass] ++ [wRuleOther]) 0 (some "fed-1099")).results
        = (runRulesEngine [wRulePass] 0 (some "fed-1099")).results
          ++ (runRulesEngine [wRuleOther] 0 (some "fed-1099")).results ∧
      (errorResult wRuleBoom "boom").status = Status.skip ∧
      (errorResult wRuleBoom "boom").detail = "Error running check: " ++ "boom" ∧
      (runRulesEngine ([wRulePass] ++ wRuleBoom :: [wRuleOther]) 0 (some "fed-1099")).results.length
        = (applicableRules ([wRulePass] ++ wRuleBoom :: [wRuleOther]) (some "fed-1099")).length) :=
  ⟨rfl, c2_rule_isolation 0 (some "fed-1099") [wRulePass] [wRuleOther] wRuleBoom "boom" rfl rfl⟩

/-- The spec-side points of a scored verdict list: pass = 1, warn = 0.5,
fail = 0. -/
def specPoints (rs : List RuleResult) : ℚ :=
  (rs.map (fun r =>
    if r.status = Status.pass then (1 : ℚ)
    else if r.status = Status.warn then 1/2 else 0)).sum

lemma foldl_add_eq {α : Type} (f : α → ℚ) :
    ∀ (rs : List α) (a : ℚ), rs.foldl (fun sum r => sum + f r) a = a + (rs.map f).sum := by
  intro rs
  induction rs with
  | nil => intro a; simp
  | cons x xs ih => intro a; simp [ih, add_assoc]

lemma enginePoints_eq (rs : List RuleResult) : enginePoints rs = specPoints rs := by
  unfold enginePoints specPoints
  rw [foldl_add_eq]
  simp

lemma score_formula_list (rs : List RuleResult) :
    (if 0 < (rs.filter (fun r => r.status ≠ Status.skip)).length
     then jsRoundZ (enginePoints (rs.filter (fun r => r.status ≠ Status.skip))
        / ((rs.filter (fun r => r.status ≠ Status.skip)).length : ℚ) * 100)
     else 0)
    = (if rs.filter (fun r => r.status ≠ Status.skip) = [] then 0
       else jsRoundZ (100 * specPoints (rs.filter (fun r => r.status ≠ Status.skip))
          / ((rs.filter (fun r => r.status ≠ Status.skip)).length : ℚ))) := by
  rcases eq_or_ne (rs.filter (fun r => r.status ≠ Status.skip)) [] with h | h
  · rw [h]
    simp
  · have hl : 0 < (rs.filter (fun r => r.status ≠ Status.skip)).length :=
      List.length_pos.mpr h
    rw [if_pos hl, if_neg h]
    congr 1
    rw [enginePoints_eq]
    ring

/-- C3: for every state, scenario filter and rule table, the engine's
summary score equals round(100 x points / scored-count) over the
non-skip verdicts, with pass = 1, warn = 0.5, fail = 0; when every
verdict is skip the scored list is empty and the score is 0 with no
division performed. -/
theorem c3_score_formula {σ : Type} (rules : List (Rule σ)) (state : σ) (flt : Option String) :
    (runRulesEngine rules state flt).summary.score
      = (if (runRulesEngine rules state flt).results.filter
            (fun r => r.status ≠ Status.skip) = [] then 0
         else jsRoundZ (100 * specPoints ((runRulesEngine rules state flt).results.filter
              (fun r => r.status ≠ Status.skip))
            / (((runRulesEngine rules state flt).results.filter
              (fun r => r.status ≠ Status.skip)).length : ℚ))) :=
  score_formula_list ((runRulesEngine rules state flt).results)

/-- C6: for every state and rule table, running the engine with the
fed-1099 scenario filter yields exactly the verdicts of the rules whose
scenario tags contain fed-1099, in table order, and every verdict in the
result list arises from such a rule — so a rule tagged only with other
scenarios (for instance only ca-w2) never contributes a verdict. -/
theorem c6_scenario_filtering {σ : Type} (rules : List (Rule σ)) (state : σ) :
    (runRulesEngine rules state (some "fed-1099")).results
      = (rules.filter (fun r => r.scenarios.contains "fed-1099")).map (evalRule state) ∧
    ∀ v ∈ (runRulesEngine rules state (some "fed-1099")).results,
      ∃ r ∈ rules, r.scenarios.contains "fed-1099" = true ∧ v = evalRule state r := by
  constructor
  · rfl
  · intro v hv
    have h : v ∈ (rules.filter (fun r => r.scenarios.contains "fed-1099")).map
        (evalRule state) := hv
    rcases List.mem_map.mp h with ⟨r, hr, hvr⟩
    have hf := List.mem_filter.mp hr
    exact ⟨r, hf.1, hf.2, hvr.symm⟩

/-- C6, witness: the filtering theorem instantiated on a two-rule table
(one rule tagged fed-1099, one tagged only ca-w2): the result list is
exactly the verdict of the fed-1099 rule, and that verdict arises from a
fed-1099-tagged rule of the table. -/
theorem c6_scenario_filtering_witness :
    (runRulesEngine [wRulePass, wRuleOther] 0 (some "fed-1099")).results
      = [evalRule 0 wRulePass] ∧
    ∃ r ∈ [wRulePass, wRuleOther], r.scenarios.contains "fed-1099" = true ∧
      evalRule 0 wRulePass = evalRule 0 r := by
  have h := c6_scenario_filtering [wRulePass, wRuleOther] 0
  refine ⟨by rw [h.1]; rfl, h.2 (evalRule 0 wRulePass) ?_⟩
  rw [h.1]
  show evalRule 0 wRulePass ∈ [evalRule 0 wRulePass]
  exact List.mem_singleton.mpr rfl

/-! ## Gap-question selection theorems -/

/-- C8: getGapQuestions returns exactly the gap rules whose identifier
is not yet a key of the session's answer map and whose condition
evaluates (without raising) to true; consequently once has401k is
answered — with either value — no rule with that identifier is ever
returned again. -/
theorem c8_gap_selection :
    (∀ (s : Session) (r : GapRule),
      r ∈ getGapQuestions s ↔
        (r ∈ GAP_RULES ∧ s.gapAnswers.lookup r.id = none ∧
          r.condition s = Except.ok true)) ∧
    (∀ s : Session, (s.gapAnswers.lookup "has401k").isSome = true →
      ∀ r ∈ getGapQuestions s, r.id ≠ "has401k") := by
  have main : ∀ (s : Session) (r : GapRule),
      r ∈ getGapQuestions s ↔
        (r ∈ GAP_RULES ∧ s.gapAnswers.lookup r.id = none ∧
          r.condition s = Except.ok true) := by
    intro s r
    unfold getGapQuestions
    rw [List.mem_filter]
    constructor
    · rintro ⟨hmem, hkeep⟩
      unfold gapKeep at hkeep
      cases hl : s.gapAnswers.lookup r.id with
      | some v =>
        rw [hl] at hkeep
        simp at hkeep
      | none =>
        rw [hl] at hkeep
        simp only [Option.isSome_none, Bool.false_eq_true, if_false] at hkeep
        cases hc : r.condition s with
        | ok b =>
          rw [hc] at hkeep
          simp at hkeep
          subst hkeep
          exact ⟨hmem, rfl, rfl⟩
        | error e =>
          rw [hc] at hkeep
          simp at hkeep
    · rintro ⟨hmem, hl, hc⟩
      refine ⟨hmem, ?_⟩
      unfold gapKeep
      rw [hl, hc]
      simp
  refine ⟨main, ?_⟩
  intro s h r hr heq
  have hnone := ((main s r).mp hr).2.1
  rw [heq] at hnone
  rw [hnone] at h
  simp at h

/-- A session in which has401k has already been answered. -/
def c8session : Session :=
  { taxYear := 2025, filingStatus := .single, stateOfResidence := none
    childrenUnder17 := 0, otherDependents := 0, incomes := []
    gapAnswers := [("has401k", true)], manualEntries := ManualEntries.none
    deductionType := "standard", itemized := ⟨0, 0, 0, 0⟩ }

/-- C8, witness: on the session with has401k answered, the
characterization holds for the hasIRA rule, which is still returned, and
any returned rule has an identifier other than has401k. -/
theorem c8_gap_selection_witness :
    (gapHasIRA ∈ getGapQuestions c8session ↔
      (gapHasIRA ∈ GAP_RULES ∧ c8session.gapAnswers.lookup gapHasIRA.id = none ∧
        gapHasIRA.condition c8session = Except.ok true)) ∧
    gapHasIRA.id ≠ "has401k" := by
  refine ⟨c8_gap_selection.1 c8session gapHasIRA,
    c8_gap_selection.2 c8session rfl gapHasIRA ?_⟩
  apply (c8_gap_selection.1 c8session gapHasIRA).mpr
  refine ⟨?_, rfl, rfl⟩
  simp [GAP_RULES]

/-! ## Bracket calculator theorems -/

lemma taxCore_nil (x : ℚ) : taxCore x [] = 0 := rfl

lemma taxCore_cons (x : ℚ) (b : Bracket) (bs : List Bracket) :
    taxCore x (b :: bs) =
      if x ≤ 0 then 0
      else bracketAmt x b.width * b.rate + taxCore (x - bracketAmt x b.width) bs := rfl

lemma taxCore_nonpos (x : ℚ) (bs : List Bracket) (h : x ≤ 0) : taxCore x bs = 0 := by
  cases bs with
  | nil => rfl
  | cons b bs => rw [taxCore_cons, if_pos h]

/-- A bracket has a nonnegative width (an unbounded width counts). -/
def widthNN (b : Bracket) : Prop := ∀ w, b.width = some w → 0 ≤ w

lemma taxCore_nonneg : ∀ (bs : List Bracket), (∀ b ∈ bs, 0 ≤ b.rate ∧ widthNN b) →
    ∀ x : ℚ, 0 ≤ taxCore x bs := by
  intro bs
  induction bs with
  | nil => intro _ x; rw [taxCore_nil]
  | cons b bs ih =>
    intro h x
    rw [taxCore_cons]
    split_ifs with hx
    · exact le_refl 0
    · push_neg at hx
      have hb := h b (List.mem_cons_self b bs)
      have hamt : 0 ≤ bracketAmt x b.width := by
        cases hw : b.width with
        | none => exact le_of_lt hx
        | some w => exact le_min (le_of_lt hx) (hb.2 w hw)
      exact add_nonneg (mul_nonneg hamt hb.1)
        (ih (fun b2 hb2 => h b2 (List.mem_cons_of_mem _ hb2)) _)

lemma taxCore_mono : ∀ (bs : List Bracket), (∀ b ∈ bs, 0 ≤ b.rate ∧ widthNN b) →
    ∀ x y : ℚ, x ≤ y → taxCore x bs ≤ taxCore y bs := by
  intro bs
  induction bs with
  | nil => intro _ x y _; rw [taxCore_nil, taxCore_nil]
  | cons b bs ih =>
    intro h x y hxy
    have hb := h b (List.mem_cons_self b bs)
    have htail := fun b2 hb2 => h b2 (List.mem_cons_of_mem b hb2)
    rw [taxCore_cons, taxCore_cons]
    by_cases hy : y ≤ 0
    · rw [if_pos (le_trans hxy hy), if_pos hy]
    · rw [if_neg hy]
      push_neg at hy
      by_cases hx : x ≤ 0
      · rw [if_pos hx]
        refine add_nonneg (mul_nonneg ?_ hb.1) (taxCore_nonneg bs htail _)
        cases hw : b.width with
        | none => exact le_of_lt hy
        | some w => exact le_min (le_of_lt hy) (hb.2 w hw)
      · rw [if_neg hx]
        have h1 : bracketAmt x b.width ≤ bracketAmt y b.width := by
          cases b.width with
          | none => exact hxy
          | some w => exact min_le_min hxy le_rfl
        have h2 : x - bracketAmt x b.width ≤ y - bracketAmt y b.width := by
          cases b.width with
          | none => simp [bracketAmt]
          | some w =>
            show x - min x w ≤ y - min y w
            rcases le_total x w with hxw | hxw
            · rw [min_eq_left hxw]
              have hmy := min_le_left y w
              linarith
            · rw [min_eq_right hxw, min_eq_right (le_trans hxw hxy)]
              linarith
        exact add_le_add (mul_le_mul_of_nonneg_right h1 hb.1) (ih htail _ _ h2)

lemma jsRound_mono {x y : ℚ} (h : x ≤ y) : jsRound x ≤ jsRound y := by
  unfold jsRound jsRoundZ
  exact_mod_cast Int.floor_mono (by linarith)

/-- A finite-width bracket from a (width, rate) pair. -/
def toBracket (q : ℚ × ℚ) : Bracket := ⟨some q.1, q.2⟩

lemma taxCore_linear : ∀ (p : List (ℚ × ℚ)), (∀ q ∈ p, 0 < q.1) →
    ∀ (wk : Option ℚ) (rk : ℚ) (rest : List Bracket) (x d : ℚ),
      0 ≤ d → (p.map Prod.fst).sum ≤ x →
      (∀ w, wk = some w → x + d ≤ (p.map Prod.fst).sum + w) →
      taxCore (x + d) (p.map toBracket ++ ⟨wk, rk⟩ :: rest)
        = taxCore x (p.map toBracket ++ ⟨wk, rk⟩ :: rest) + d * rk := by
  intro p
  induction p with
  | nil =>
    intro _ wk rk rest x d hd hL hup
    simp only [List.map_nil, List.nil_append, List.sum_nil] at hL hup ⊢
    rcases eq_or_lt_of_le hL with rfl | hx0
    · rcases eq_or_lt_of_le hd with rfl | hd0
      · norm_num
      · rw [taxCore_cons, taxCore_cons, zero_add, if_neg (not_le.mpr hd0), if_pos le_rfl]
        cases wk with
        | none =>
          simp only [bracketAmt]
          rw [sub_self, taxCore_nonpos 0 rest le_rfl]
          ring
        | some w =>
          have hdw : d ≤ w := by
            have h := hup w rfl
            linarith
          simp only [bracketAmt]
          rw [min_eq_left hdw, sub_self, taxCore_nonpos 0 rest le_rfl]
          ring
    · have hxd : 0 < x + d := by linarith
      rw [taxCore_cons, taxCore_cons, if_neg (not_le.mpr hxd), if_neg (not_le.mpr hx0)]
      cases wk with
      | none =>
        simp only [bracketAmt]
        rw [sub_self, sub_self, taxCore_nonpos 0 rest le_rfl]
        ring
      | some w =>
        have hxdw : x + d ≤ w := by
          have h := hup w rfl
          linarith
        have hxw : x ≤ w := by linarith
        simp only [bracketAmt]
        rw [min_eq_left hxdw, min_eq_left hxw, sub_self, sub_self, taxCore_nonpos 0 rest le_rfl]
        ring
  | cons q p ih =>
    intro hpos wk rk rest x d hd hL hup
    obtain ⟨w0, r0⟩ := q
    simp only [List.map_cons, List.sum_cons, List.cons_append] at hL hup ⊢
    have hw0 : 0 < w0 := hpos (w0, r0) (List.mem_cons_self _ _)
    have hLp : 0 ≤ (p.map Prod.fst).sum := by
      apply List.sum_nonneg
      intro a ha
      rcases List.mem_map.mp ha with ⟨q2, hq2, rfl⟩
      exact le_of_lt (hpos q2 (List.mem_cons_of_mem _ hq2))
    have hx : 0 < x := by linarith
    have hxd : 0 < x + d := by linarith
    have hw0x : w0 ≤ x := by linarith
    have hw0xd : w0 ≤ x + d := by linarith
    rw [taxCore_cons, taxCore_cons, if_neg (not_le.mpr hxd), if_neg (not_le.mpr hx)]
    simp only [toBracket, bracketAmt]
    rw [min_eq_right hw0x, min_eq_right hw0xd]
    have ihh := ih (fun q2 hq2 => hpos q2 (List.mem_cons_of_mem _ hq2)) wk rk rest (x - w0) d hd
      (by linarith)
      (by
        intro w hw
        have h := hup w hw
        linarith)
    have harg : x + d - w0 = x - w0 + d := by ring
    rw [harg, ihh]
    ring

/-- C5, counterexample: with the 2025 federal single table, increasing
taxable income from 0 to 5 stays inside the first bracket (rate 0.10),
but the rounded computeTaxFromBrackets result rises from 0 to 1, not by
5 x 0.10 = 0.5 — the claimed exact per-bracket increment fails for the
rounded function. -/
theorem c5_bracket_monotonicity_counterexample :
    (0 : ℚ) + 5 ≤ 11925 ∧
    computeTaxFromBrackets (0 + 5) fed2025.bracketsSingle
      ≠ computeTaxFromBrackets 0 fed2025.bracketsSingle + 5 * (0.10 : ℚ) := by
  constructor
  · norm_num
  · norm_num [computeTaxFromBrackets, taxCore, fed2025, bracketAmt, jsRound, jsRoundZ]

/-- C5, amended: for every bracket table with nonnegative rates and
widths, computeTaxFromBrackets (with its final rounding) is
non-decreasing in taxable income; and the pre-rounding accumulated tax
increases by exactly d x rate when an increase d starting at income x
stays within a single bracket (the rounded result can differ from that
exact increment only by the final rounding, as the counterexample
shows). -/
theorem c5_bracket_monotonicity :
    (∀ (bs : List Bracket), (∀ b ∈ bs, 0 ≤ b.rate ∧ widthNN b) →
      ∀ x y : ℚ, x ≤ y →
        computeTaxFromBrackets x bs ≤ computeTaxFromBrackets y bs) ∧
    (∀ (p : List (ℚ × ℚ)), (∀ q ∈ p, 0 < q.1) →
      ∀ (wk : Option ℚ) (rk : ℚ) (rest : List Bracket) (x d : ℚ),
        0 ≤ d → (p.map Prod.fst).sum ≤ x →
        (∀ w, wk = some w → x + d ≤ (p.map Prod.fst).sum + w) →
        taxCore (x + d) (p.map toBracket ++ ⟨wk, rk⟩ :: rest)
          = taxCore x (p.map toBracket ++ ⟨wk, rk⟩ :: rest) + d * rk) :=
  ⟨fun bs hb x y hxy => jsRound_mono (taxCore_mono bs hb x y hxy), taxCore_linear⟩

/-- The 2025 federal single brackets beyond the first two. -/
def c5rest : List Bracket :=
  [⟨some (103350 - 48475), 0.22⟩, ⟨some (197300 - 103350), 0.24⟩,
   ⟨some (250525 - 197300), 0.32⟩, ⟨some (626350 - 250525), 0.35⟩, ⟨none, 0.37⟩]

/-- C5, witness: monotonicity applied to the 2025 federal single table
at incomes 30000 and 40000, and the exact-increment identity applied
inside the 12 percent bracket at income 20000 with increase 1000. -/
theorem c5_bracket_monotonicity_witness :
    ((∀ b ∈ fed2025.bracketsSingle, 0 ≤ b.rate ∧ widthNN b) ∧
      computeTaxFromBrackets 30000 fed2025.bracketsSingle
        ≤ computeTaxFromBrackets 40000 fed2025.bracketsSingle) ∧
    taxCore (20000 + 1000)
        ([((11925 : ℚ), (0.10 : ℚ))].map toBracket ++ ⟨some (48475 - 11925), 0.12⟩ :: c5rest)
      = taxCore 20000
          ([((11925 : ℚ), (0.10 : ℚ))].map toBracket ++ ⟨some (48475 - 11925), 0.12⟩ :: c5rest)
        + 1000 * 0.12 := by
  have hb : ∀ b ∈ fed2025.bracketsSingle, 0 ≤ b.rate ∧ widthNN b := by
    norm_num [fed2025, widthNN]
    exact fun w h => Option.noConfusion h
  refine ⟨⟨hb, c5_bracket_monotonicity.1 fed2025.bracketsSingle hb 30000 40000 (by norm_num)⟩, ?_⟩
  refine c5_bracket_monotonicity.2 [((11925 : ℚ), (0.10 : ℚ))] (by norm_num)
    (some (48475 - 11925)) 0.12 c5rest 20000 1000 (by norm_num) (by norm_num) ?_
  intro w hw
  injection hw with hw
  rw [← hw]
  norm_num

end Moria
